import Mathlib

/-!
Shallow embedding of the service-ticket dashboard's core pipeline
(src/demo-dashboard.py): filtering (lines 107-113), summary metrics
(lines 118-122), categorical value counts for the donut charts
(lines 142-144), and the time-bucketed groupings (lines 157-172).

Pandas dataframes of ticket rows are modelled as Lean lists of a
`Ticket` structure; the boolean-mask filter becomes `List.filter`;
`groupby(...).size()` (pandas sorts group keys ascending by default)
becomes "sort the distinct keys, pair each with its count".
-/

/-- A calendar date, as produced by `.dt.date` in the script. -/
structure Date where
  year : Nat
  month : Nat
  day : Nat
deriving DecidableEq, Repr

/-- Chronological order on calendar dates (Python `datetime.date` comparison). -/
def Date.le (a b : Date) : Prop :=
  a.year < b.year ∨
    (a.year = b.year ∧ (a.month < b.month ∨ (a.month = b.month ∧ a.day ≤ b.day)))

instance : DecidableRel Date.le := fun a b => by
  unfold Date.le; infer_instance

/-- A timestamp as stored in the `CreatedDate` column after `pd.to_datetime`:
a calendar date plus a time-of-day component. The script always truncates to
the date (`.dt.date`, `.dt.to_period`, `.dt.year`) before using it. -/
structure Timestamp where
  date : Date
  secondOfDay : Nat
deriving DecidableEq, Repr

/-- One row of the ticket dataframe after `load_data` (lines 73-78).
`closedDate` is `none` when the `ClosedDate` cell was missing or unparsable
(`errors='coerce'` maps those to `NaT`). -/
structure Ticket where
  category : String
  priority : String
  status : String
  createdDate : Timestamp
  closedDate : Option Timestamp
deriving DecidableEq, Repr

/-- The filter inputs the script reads from the sidebar widgets (lines 85-102):
date-range bounds, the three multiselect lists, and the time-frame choice.
`time_frame` is a plain string, exactly as the script branches on it. -/
structure FilterSpec where
  start_date : Date
  end_date : Date
  categories : List String
  priorities : List String
  statuses : List String
  time_frame : String
deriving Repr

/-- The boolean mask of lines 107-113: created date (truncated to calendar
date) within the inclusive bounds, and category/priority/status each in the
corresponding selected list. -/
def passes_filter (s : FilterSpec) (t : Ticket) : Bool :=
  decide (Date.le s.start_date t.createdDate.date) &&
  decide (Date.le t.createdDate.date s.end_date) &&
  s.categories.contains t.category &&
  s.priorities.contains t.priority &&
  s.statuses.contains t.status

/-- `filtered_df` (lines 107-113): the rows passing the mask, in order. -/
def filtered_df (df : List Ticket) (s : FilterSpec) : List Ticket :=
  df.filter (passes_filter s)

/-- The statuses counted as active on lines 119 and 171. -/
def active_statuses : List String := ["Open", "In Progress", "On Hold"]

/-- `total_tickets = len(filtered_df)` (line 118). -/
def total_tickets (f : List Ticket) : Nat := f.length

/-- `active_tickets` (line 119): rows whose status is in `active_statuses`. -/
def active_tickets (f : List Ticket) : Nat :=
  (f.filter (fun t => active_statuses.contains t.status)).length

/-- `closed_tickets` (line 121): rows whose status equals `"Closed"`. -/
def closed_tickets (f : List Ticket) : Nat :=
  (f.filter (fun t => t.status == "Closed")).length

/-- `closure_rate` (line 122): percentage of closed tickets, `0` when the
filtered set is empty. Python float division is modelled over `ℚ`. -/
def closure_rate (f : List Ticket) : ℚ :=
  if total_tickets f > 0 then
    (closed_tickets f : ℚ) / (total_tickets f : ℚ) * 100
  else 0

/-- A group-by key of lines 157-167: a calendar date for `Daily`, a label
string for the other branches (pandas stores `.dt.date` objects for `Daily`
and strings otherwise). -/
inductive TimeGroup where
  | date (d : Date)
  | label (s : String)
deriving DecidableEq, Repr

/-- `strftime('%b %Y')` month abbreviations (line 162). -/
def month_abbrev (m : Nat) : String :=
  ["Jan", "Feb", "Mar", "Apr", "May", "Jun",
   "Jul", "Aug", "Sep", "Oct", "Nov", "Dec"].getD (m - 1) ""

/-- The bucket assigned by `group_time` (lines 157-167) to one created date:
`Daily` keeps the calendar date; `Monthly` renders `"%b %Y"`; `Quarterly`
renders `"YYYYQq"` (`str` of a quarterly period); every other time-frame
string falls into the `else` branch and renders the year. -/
def time_group (freq : String) (t : Ticket) : TimeGroup :=
  let d := t.createdDate.date
  if freq == "Daily" then .date d
  else if freq == "Monthly" then .label (month_abbrev d.month ++ " " ++ toString d.year)
  else if freq == "Quarterly" then .label (toString d.year ++ "Q" ++ toString ((d.month + 2) / 3))
  else .label (toString d.year)

/-- `group_time` (lines 157-167): copy the frame and attach the `TimeGroup`
column. -/
def group_time (df : List Ticket) (freq : String) : List (Ticket × TimeGroup) :=
  df.map (fun t => (t, time_group freq t))

/-- Lexicographic comparison of character sequences by Unicode code point,
the order Python uses to compare the label strings. -/
def chars_le : List Char → List Char → Bool
  | [], _ => true
  | _ :: _, [] => false
  | a :: as, b :: bs =>
    if a.toNat < b.toNat then true
    else if b.toNat < a.toNat then false
    else chars_le as bs

theorem chars_le_total (a b : List Char) :
    chars_le a b = true ∨ chars_le b a = true := by
  induction a generalizing b with
  | nil => left; rfl
  | cons x xs ih =>
    cases b with
    | nil => right; rfl
    | cons y ys =>
      by_cases h1 : x.toNat < y.toNat
      · left; simp [chars_le, h1]
      · by_cases h2 : y.toNat < x.toNat
        · right; simp [chars_le, h2]
        · rcases ih ys with h | h
          · left; simp [chars_le, h1, h2, h]
          · right; simp [chars_le, h1, h2, h]

theorem chars_le_trans (a b c : List Char) (hab : chars_le a b = true)
    (hbc : chars_le b c = true) : chars_le a c = true := by
  induction a generalizing b c with
  | nil => rfl
  | cons x xs ih =>
    cases b with
    | nil => simp [chars_le] at hab
    | cons y ys =>
      cases c with
      | nil => simp [chars_le] at hbc
      | cons z zs =>
        simp only [chars_le] at hab hbc ⊢
        split_ifs at hab hbc ⊢ <;> first
          | rfl
          | omega
          | exact ih ys zs hab hbc

/-- Python string comparison, applied to labels. -/
def str_le (a b : String) : Prop := chars_le a.data b.data = true

instance : DecidableRel str_le := fun a b => by
  unfold str_le; infer_instance

/-- Ascending order on group keys, as pandas `groupby(sort=True)` sorts them:
chronological for date keys, lexicographic for label strings (Python string
comparison). The mixed cases never arise within one grouping. -/
def tg_le : TimeGroup → TimeGroup → Prop
  | .date a, .date b => Date.le a b
  | .date _, .label _ => True
  | .label _, .date _ => False
  | .label a, .label b => str_le a b

instance : DecidableRel tg_le := fun a b => by
  cases a <;> cases b <;> unfold tg_le <;> infer_instance

instance : IsTotal TimeGroup tg_le where
  total a b := by
    cases a <;> cases b <;> simp only [tg_le] <;> try tauto
    · unfold Date.le; omega
    · exact chars_le_total _ _

instance : IsTrans TimeGroup tg_le where
  trans a b c hab hbc := by
    cases a <;> cases b <;> cases c <;> simp only [tg_le] at * <;> try tauto
    · unfold Date.le at *; omega
    · exact chars_le_trans _ _ _ hab hbc

/-- `groupby('TimeGroup').size()` (lines 170-172): the distinct keys in
ascending order, each paired with its number of occurrences. -/
def groupby_size (keys : List TimeGroup) : List (TimeGroup × Nat) :=
  (List.insertionSort tg_le keys.dedup).map (fun k => (k, keys.count k))

/-- `grouped_total` (line 170): bucket sizes over the whole filtered frame. -/
def grouped_total (f : List Ticket) (freq : String) : List (TimeGroup × Nat) :=
  groupby_size ((group_time f freq).map Prod.snd)

/-- `grouped_active` (line 171): bucket sizes over the active-status rows. -/
def grouped_active (f : List Ticket) (freq : String) : List (TimeGroup × Nat) :=
  groupby_size (((group_time f freq).filter
    (fun p => active_statuses.contains p.1.status)).map Prod.snd)

/-- `grouped_closed` (line 172): bucket sizes over the `"Closed"` rows. -/
def grouped_closed (f : List Ticket) (freq : String) : List (TimeGroup × Nat) :=
  groupby_size (((group_time f freq).filter
    (fun p => p.1.status == "Closed")).map Prod.snd)

/-- `value_counts` inside `create_donut` (line 143): occurrence counts of the
distinct values of a string column, most frequent first (pandas sorts by
count descending). -/
def value_counts (l : List String) : List (String × Nat) :=
  List.insertionSort (fun p q : String × Nat => q.2 ≤ p.2)
    (l.dedup.map (fun v => (v, l.count v)))

/-- The count table behind `create_donut` (lines 142-148) for one column of
the filtered frame; the plotly figure itself is presentation. -/
def donut_counts (f : List Ticket) (column : Ticket → String) : List (String × Nat) :=
  value_counts (f.map column)

/-- The error raised by `pd.to_datetime` on an unparsable required column
(line 76 uses the default `errors='raise'`). -/
inductive LoadError where
  | malformedInput
deriving DecidableEq, Repr

/-- One raw CSV row before date parsing (line 75). -/
structure RawRow where
  category : String
  priority : String
  status : String
  createdDate : String
  closedDate : String
deriving Repr

/-- `load_data` (lines 73-78), parameterised over the timestamp parser that
`pd.to_datetime` applies cell-wise. `CreatedDate` is parsed strictly: a
single unparsable cell fails the whole load (line 76). `ClosedDate` is
parsed with `errors='coerce'` (line 77): an unparsable or missing cell
becomes `NaT`, modelled as `none`, for that row only. -/
def load_data (parse : String → Option Timestamp) :
    List RawRow → Except LoadError (List Ticket)
  | [] => .ok []
  | r :: rs =>
    match parse r.createdDate with
    | none => .error .malformedInput
    | some c =>
      match load_data parse rs with
      | .error e => .error e
      | .ok ts => .ok ({ category := r.category, priority := r.priority,
                         status := r.status, createdDate := c,
                         closedDate := parse r.closedDate } :: ts)

/-- Everything the script derives from one filter specification: the
filtered frame (line 107), the scalar metrics (lines 118-122; `new_tickets`
is wall-clock dependent and out of scope), the three donut count tables
(lines 150-152) and the three time series (lines 170-172). -/
structure QueryResult where
  filtered : List Ticket
  totalTickets : Nat
  activeTickets : Nat
  closedTickets : Nat
  closureRate : ℚ
  categoryCounts : List (String × Nat)
  priorityCounts : List (String × Nat)
  statusCounts : List (String × Nat)
  totalSeries : List (TimeGroup × Nat)
  activeSeries : List (TimeGroup × Nat)
  closedSeries : List (TimeGroup × Nat)
deriving Repr

/-- The straight-line pipeline of lines 107-172 as one function. It is total:
the script validates nothing and raises nothing on its own. -/
def evaluate (df : List Ticket) (s : FilterSpec) : QueryResult :=
  let f := filtered_df df s
  { filtered := f
    totalTickets := total_tickets f
    activeTickets := active_tickets f
    closedTickets := closed_tickets f
    closureRate := closure_rate f
    categoryCounts := donut_counts f Ticket.category
    priorityCounts := donut_counts f Ticket.priority
    statusCounts := donut_counts f Ticket.status
    totalSeries := grouped_total f s.time_frame
    activeSeries := grouped_active f s.time_frame
    closedSeries := grouped_closed f s.time_frame }

/-! Concrete sample data used by witnesses and counterexamples, following the
spec's concrete scenario (three tickets across Jan-Feb 2024). -/

/-- Midnight timestamp on a given calendar date. -/
def mk_ts (y m d : Nat) : Timestamp := ⟨⟨y, m, d⟩, 0⟩

def sample_open : Ticket :=
  ⟨"Network", "High", "Open", mk_ts 2024 1 5, none⟩

def sample_closed : Ticket :=
  ⟨"Network", "Low", "Closed", mk_ts 2024 1 20, some (mk_ts 2024 1 25)⟩

def sample_hold : Ticket :=
  ⟨"Hardware", "High", "On Hold", mk_ts 2024 2 10, none⟩

def sample_df : List Ticket := [sample_open, sample_closed, sample_hold]

def sample_spec : FilterSpec :=
  ⟨⟨2024, 1, 1⟩, ⟨2024, 2, 29⟩, ["Network", "Hardware"], ["High", "Low"],
   ["Open", "Closed", "On Hold"], "Monthly"⟩

/-- The spec's invalid-filter scenario: start 2024-03-01, end 2024-01-01. -/
def inverted_spec : FilterSpec :=
  { sample_spec with start_date := ⟨2024, 3, 1⟩, end_date := ⟨2024, 1, 1⟩ }

/-- A time-frame value outside the recognised four. -/
def weekly_spec : FilterSpec := { sample_spec with time_frame := "Weekly" }

/-- C1: a ticket of the input frame is in the filtered set returned by
`evaluate` iff its created date, truncated to calendar-date granularity, lies
between the start and end dates inclusive, its category is among the selected
categories, its priority among the selected priorities, and its status among
the selected statuses. -/
theorem C1_filter_membership (df : List Ticket) (s : FilterSpec) (t : Ticket)
    (ht : t ∈ df) :
    t ∈ (evaluate df s).filtered ↔
      (Date.le s.start_date t.createdDate.date ∧
       Date.le t.createdDate.date s.end_date ∧
       t.category ∈ s.categories ∧
       t.priority ∈ s.priorities ∧
       t.status ∈ s.statuses) := by
  simp [evaluate, filtered_df, List.mem_filter, passes_filter, ht,
    List.elem_iff, and_assoc]

theorem C1_filter_membership_witness :
    sample_open ∈ sample_df ∧
      (sample_open ∈ (evaluate sample_df sample_spec).filtered ↔
        (Date.le sample_spec.start_date sample_open.createdDate.date ∧
         Date.le sample_open.createdDate.date sample_spec.end_date ∧
         sample_open.category ∈ sample_spec.categories ∧
         sample_open.priority ∈ sample_spec.priorities ∧
         sample_open.status ∈ sample_spec.statuses)) :=
  ⟨by decide, C1_filter_membership sample_df sample_spec sample_open (by decide)⟩

/-- Every status-based sub-count is at most the frame length. -/
theorem filter_length_le (f : List Ticket) (p : Ticket → Bool) :
    (f.filter p).length ≤ f.length :=
  List.length_filter_le p f

/-- C2: the closure rate equals closed/total*100 when the filtered set is
nonempty and exactly 0 when it is empty, and always lies in [0, 100]. -/
theorem C2_closure_rate_bounds (f : List Ticket) :
    closure_rate f =
      (if 0 < total_tickets f
        then (closed_tickets f : ℚ) / (total_tickets f : ℚ) * 100 else 0) ∧
    0 ≤ closure_rate f ∧ closure_rate f ≤ 100 := by
  have hle : closed_tickets f ≤ total_tickets f := filter_length_le f _
  refine ⟨rfl, ?_, ?_⟩
  · unfold closure_rate
    split
    · positivity
    · exact le_refl 0
  · unfold closure_rate
    split
    · have htpos : (0 : ℚ) < (total_tickets f : ℚ) := by
        exact_mod_cast ‹0 < total_tickets f›
      have h1 : (closed_tickets f : ℚ) / (total_tickets f : ℚ) ≤ 1 := by
        rw [div_le_one htpos]
        exact_mod_cast hle
      calc (closed_tickets f : ℚ) / (total_tickets f : ℚ) * 100
          ≤ 1 * 100 := by nlinarith
        _ = 100 := by norm_num
    · norm_num

/-- C8: active and closed tickets together never exceed the total, since no
status is both in the active set and equal to `"Closed"`. -/
theorem C8_conservation (f : List Ticket) :
    active_tickets f + closed_tickets f ≤ total_tickets f := by
  unfold active_tickets closed_tickets total_tickets
  induction f with
  | nil => simp
  | cons t rest ih =>
    by_cases hc : t.status = "Closed"
    · have ha : active_statuses.contains "Closed" = false := by decide
      simp only [List.filter_cons, hc, ha, beq_self_eq_true, if_true, if_false,
        Bool.false_eq_true, List.length_cons]
      omega
    · have hq : (t.status == "Closed") = false := by
        simpa using hc
      by_cases ha : active_statuses.contains t.status = true <;>
        simp only [List.filter_cons, hq, ha, if_true, if_false,
          Bool.false_eq_true, List.length_cons] <;> omega

/-- Widening every component of the filter weakens the row mask. -/
theorem passes_filter_mono (s s2 : FilterSpec)
    (hs : Date.le s2.start_date s.start_date)
    (he : Date.le s.end_date s2.end_date)
    (hc : ∀ x ∈ s.categories, x ∈ s2.categories)
    (hp : ∀ x ∈ s.priorities, x ∈ s2.priorities)
    (hst : ∀ x ∈ s.statuses, x ∈ s2.statuses)
    (t : Ticket) (h : passes_filter s t = true) : passes_filter s2 t = true := by
  simp only [passes_filter, Bool.and_eq_true, decide_eq_true_eq,
    List.elem_iff] at h ⊢
  obtain ⟨⟨⟨⟨h1, h2⟩, h3⟩, h4⟩, h5⟩ := h
  refine ⟨⟨⟨⟨?_, ?_⟩, hc _ h3⟩, hp _ h4⟩, hst _ h5⟩
  · unfold Date.le at *; omega
  · unfold Date.le at *; omega

/-- C6: widening a FilterSpec (superset category/priority/status selections,
containing date range) never decreases the total-ticket count of `evaluate`. -/
theorem C6_filter_monotonicity (T : List Ticket) (S Sw : FilterSpec)
    (hs : Date.le Sw.start_date S.start_date)
    (he : Date.le S.end_date Sw.end_date)
    (hc : ∀ x ∈ S.categories, x ∈ Sw.categories)
    (hp : ∀ x ∈ S.priorities, x ∈ Sw.priorities)
    (hst : ∀ x ∈ S.statuses, x ∈ Sw.statuses) :
    (evaluate T S).totalTickets ≤ (evaluate T Sw).totalTickets := by
  show total_tickets (filtered_df T S) ≤ total_tickets (filtered_df T Sw)
  unfold total_tickets filtered_df
  exact (List.monotone_filter_right T
    (fun t h => passes_filter_mono S Sw hs he hc hp hst t h)).length_le

theorem C6_filter_monotonicity_witness :
    (Date.le inverted_spec.start_date inverted_spec.start_date ∧
     Date.le inverted_spec.end_date sample_spec.end_date ∧
     (∀ x ∈ inverted_spec.categories, x ∈ sample_spec.categories) ∧
     (∀ x ∈ inverted_spec.priorities, x ∈ sample_spec.priorities) ∧
     (∀ x ∈ inverted_spec.statuses, x ∈ sample_spec.statuses)) ∧
    (evaluate sample_df inverted_spec).totalTickets ≤
      (evaluate sample_df { sample_spec with start_date := inverted_spec.start_date }).totalTickets :=
  ⟨⟨by decide, by decide, by decide, by decide, by decide⟩,
    C6_filter_monotonicity sample_df inverted_spec
      { sample_spec with start_date := inverted_spec.start_date }
      (by decide) (by decide) (by decide) (by decide) (by decide)⟩

/-- The counts emitted by one `groupby(...).size()` call sum to the number of
grouped rows. -/
theorem groupby_size_sum (keys : List TimeGroup) :
    ((groupby_size keys).map Prod.snd).sum = keys.length := by
  unfold groupby_size
  rw [List.map_map]
  have hperm : List.Perm (List.insertionSort tg_le keys.dedup) keys.dedup :=
    List.perm_insertionSort tg_le keys.dedup
  have hperm2 :
      List.Perm ((List.insertionSort tg_le keys.dedup).map (fun k => keys.count k))
        (keys.dedup.map (fun k => keys.count k)) := hperm.map _
  calc ((List.insertionSort tg_le keys.dedup).map
          (Prod.snd ∘ fun k => (k, keys.count k))).sum
      = ((List.insertionSort tg_le keys.dedup).map (fun k => keys.count k)).sum := rfl
    _ = (keys.dedup.map (fun k => keys.count k)).sum := hperm2.sum_eq
    _ = keys.length := List.sum_map_count_dedup_eq_length keys

/-- C7: for any input frame and filter specification, the counts of the
`total` time series sum to `totalTickets`, whatever the time frame. -/
theorem C7_bucket_conservation (df : List Ticket) (s : FilterSpec) :
    ((evaluate df s).totalSeries.map Prod.snd).sum = (evaluate df s).totalTickets := by
  show ((grouped_total (filtered_df df s) s.time_frame).map Prod.snd).sum =
    total_tickets (filtered_df df s)
  unfold grouped_total total_tickets
  rw [groupby_size_sum, List.length_map, group_time, List.length_map]

/-- The counts of one `value_counts` table sum to the column length. -/
theorem value_counts_sum (l : List String) :
    ((value_counts l).map Prod.snd).sum = l.length := by
  unfold value_counts
  have hperm :
      List.Perm
        (List.insertionSort (fun p q : String × Nat => q.2 ≤ p.2)
          (l.dedup.map (fun v => (v, l.count v))))
        (l.dedup.map (fun v => (v, l.count v))) :=
    List.perm_insertionSort _ _
  rw [(hperm.map Prod.snd).sum_eq, List.map_map]
  calc (l.dedup.map (Prod.snd ∘ fun v => (v, l.count v))).sum
      = (l.dedup.map (fun v => l.count v)).sum := rfl
    _ = l.length := List.sum_map_count_dedup_eq_length l

/-- C10: each donut-chart count table (by category, priority, status) sums to
`totalTickets`: every filtered row contributes exactly once per dimension. -/
theorem C10_donut_conservation (df : List Ticket) (s : FilterSpec) :
    (((evaluate df s).categoryCounts).map Prod.snd).sum = (evaluate df s).totalTickets ∧
    (((evaluate df s).priorityCounts).map Prod.snd).sum = (evaluate df s).totalTickets ∧
    (((evaluate df s).statusCounts).map Prod.snd).sum = (evaluate df s).totalTickets := by
  refine ⟨?_, ?_, ?_⟩ <;>
    · show ((donut_counts (filtered_df df s) _).map Prod.snd).sum =
        total_tickets (filtered_df df s)
      unfold donut_counts total_tickets
      rw [value_counts_sum, List.length_map]

/-- The key column of one `groupby(...).size()` result is the sorted list of
distinct keys. -/
theorem groupby_size_keys (keys : List TimeGroup) :
    (groupby_size keys).map Prod.fst = List.insertionSort tg_le keys.dedup := by
  unfold groupby_size
  rw [List.map_map]
  simp [Function.comp_def]

/-- C4 as stated is false: with one ticket created in January 2024 and one in
February 2024 and a Monthly time frame, the emitted `total` series puts the
bucket labeled `"Feb 2024"` before `"Jan 2024"`, because the script groups by
the rendered `"%b %Y"` label and pandas sorts those strings lexically. -/
theorem C4_counterexample :
    ((evaluate [sample_open, sample_hold] sample_spec).totalSeries).map Prod.fst =
      [TimeGroup.label "Feb 2024", TimeGroup.label "Jan 2024"] := by
  decide

/-- C4 amended: each of the three time series is emitted sorted in ascending
order of its group key — chronological calendar-date order for `Daily`,
lexicographic label order for `Monthly`, `Quarterly` and `Yearly` — which for
`Monthly` labels can disagree with chronological order. -/
theorem C4_series_sorted_by_key (df : List Ticket) (s : FilterSpec) :
    List.Sorted tg_le ((evaluate df s).totalSeries.map Prod.fst) ∧
    List.Sorted tg_le ((evaluate df s).activeSeries.map Prod.fst) ∧
    List.Sorted tg_le ((evaluate df s).closedSeries.map Prod.fst) := by
  refine ⟨?_, ?_, ?_⟩ <;>
    · show List.Sorted tg_le ((groupby_size _).map Prod.fst)
      rw [groupby_size_keys]
      exact List.sorted_insertionSort tg_le _

/-- C3 as stated is false: on the spec's inverted range (start 2024-03-01,
end 2024-01-01) `evaluate` does not raise — the script performs no FilterSpec
validation and defines no InvalidFilterError — it returns a QueryResult whose
filtered set is empty. -/
theorem C3_counterexample :
    (evaluate sample_df inverted_spec).filtered = [] ∧
    (evaluate sample_df inverted_spec).totalTickets = 0 :=
  ⟨by decide, by decide⟩

/-- C3 amended: when the start date is strictly after the end date, `evaluate`
returns an empty result — an empty filtered set and a zero total — instead of
raising; the script has no filter validation and no InvalidFilterError. -/
theorem C3_inverted_range_empty (df : List Ticket) (s : FilterSpec)
    (h : ¬ Date.le s.start_date s.end_date) :
    (evaluate df s).filtered = [] ∧ (evaluate df s).totalTickets = 0 := by
  have hmask : ∀ t, passes_filter s t = false := by
    intro t
    by_contra hne
    have hp : passes_filter s t = true := by
      cases hv : passes_filter s t
      · exact absurd hv hne
      · rfl
    simp only [passes_filter, Bool.and_eq_true, decide_eq_true_eq] at hp
    obtain ⟨⟨⟨⟨h1, h2⟩, _⟩, _⟩, _⟩ := hp
    exact h (by unfold Date.le at h1 h2 ⊢; omega)
  have hnil : filtered_df df s = [] := by
    unfold filtered_df
    induction df with
    | nil => rfl
    | cons t rest ih => simp [List.filter_cons, hmask t, ih]
  constructor
  · show filtered_df df s = []
    exact hnil
  · show total_tickets (filtered_df df s) = 0
    rw [hnil]; rfl

theorem C3_inverted_range_empty_witness :
    ¬ Date.le inverted_spec.start_date inverted_spec.end_date ∧
    ((evaluate sample_df inverted_spec).filtered = [] ∧
     (evaluate sample_df inverted_spec).totalTickets = 0) :=
  ⟨by decide, C3_inverted_range_empty sample_df inverted_spec (by decide)⟩

/-- C5 as stated is false: with the unrecognised time frame `"Weekly"` the
script raises nothing — `group_time`'s final `else` silently buckets by year,
and `evaluate` returns a QueryResult with yearly buckets. -/
theorem C5_counterexample :
    (evaluate sample_df weekly_spec).totalSeries = [(TimeGroup.label "2024", 3)] ∧
    time_group "Weekly" sample_open = TimeGroup.label "2024" :=
  ⟨by decide, by decide⟩

/-- C5 amended: a time frame other than Daily, Monthly or Quarterly — any
unknown value included — is silently treated as Yearly: `evaluate` returns
exactly the result it returns for `"Yearly"`, with no error and no other
correction. -/
theorem C5_unknown_time_frame_yearly (df : List Ticket) (s : FilterSpec)
    (h1 : s.time_frame ≠ "Daily") (h2 : s.time_frame ≠ "Monthly")
    (h3 : s.time_frame ≠ "Quarterly") :
    evaluate df s = evaluate df { s with time_frame := "Yearly" } := by
  have htg : ∀ t, time_group s.time_frame t = time_group "Yearly" t := by
    intro t
    simp only [time_group]
    rw [if_neg (by simpa using h1), if_neg (by simpa using h2),
      if_neg (by simpa using h3)]
    rfl
  have hpf : passes_filter { s with time_frame := "Yearly" } = passes_filter s :=
    funext (fun t => rfl)
  simp only [evaluate, grouped_total, grouped_active, grouped_closed,
    group_time, filtered_df, hpf]
  simp [htg]

theorem C5_unknown_time_frame_yearly_witness :
    (weekly_spec.time_frame ≠ "Daily" ∧ weekly_spec.time_frame ≠ "Monthly" ∧
     weekly_spec.time_frame ≠ "Quarterly") ∧
    evaluate sample_df weekly_spec =
      evaluate sample_df { weekly_spec with time_frame := "Yearly" } :=
  ⟨⟨by decide, by decide, by decide⟩,
    C5_unknown_time_frame_yearly sample_df weekly_spec
      (by decide) (by decide) (by decide)⟩

/-- C9: the load's two parse policies are asymmetric. If any row's raw
created-date fails to parse, the whole load returns `malformedInput` and no
partial dataset; if every created-date parses, the load succeeds regardless
of the closed-date cells, and each row's closed-date resolves to the lenient
parse result — `none` (absent) exactly when unparsable — for that row only. -/
theorem C9_load_parse_policy (parse : String → Option Timestamp)
    (rows : List RawRow) :
    ((∃ r ∈ rows, parse r.createdDate = none) →
      load_data parse rows = .error .malformedInput) ∧
    ((∀ r ∈ rows, (parse r.createdDate).isSome) →
      ∃ ts, load_data parse rows = .ok ts ∧
        ts.map Ticket.closedDate = rows.map (fun r => parse r.closedDate)) := by
  induction rows with
  | nil =>
    constructor
    · rintro ⟨r, hr, _⟩
      exact absurd hr (List.not_mem_nil r)
    · exact fun _ => ⟨[], rfl, rfl⟩
  | cons r rs ih =>
    constructor
    · rintro ⟨q, hq, hqn⟩
      rcases List.mem_cons.mp hq with hqr | hq2
      · show load_data parse (r :: rs) = .error .malformedInput
        unfold load_data
        rw [← hqr, hqn]
      · cases hc : parse r.createdDate with
        | none =>
          show load_data parse (r :: rs) = .error .malformedInput
          unfold load_data
          rw [hc]
        | some c =>
          have herr := ih.1 ⟨q, hq2, hqn⟩
          show load_data parse (r :: rs) = .error .malformedInput
          unfold load_data
          rw [hc, herr]
    · intro hall
      have hr : (parse r.createdDate).isSome :=
        hall r (List.mem_cons_self r rs)
      obtain ⟨c, hc⟩ := Option.isSome_iff_exists.mp hr
      obtain ⟨ts, hts, hmap⟩ :=
        ih.2 (fun q hq => hall q (List.mem_cons_of_mem r hq))
      refine ⟨{ category := r.category, priority := r.priority,
                status := r.status, createdDate := c,
                closedDate := parse r.closedDate } :: ts, ?_, ?_⟩
      · show load_data parse (r :: rs) = _
        unfold load_data
        rw [hc, hts]
      · simp [hmap]

/-- A lenient-versus-strict sample parser: exactly one raw string parses. -/
def sample_parse : String → Option Timestamp :=
  fun raw => if raw = "2024-01-05" then some (mk_ts 2024 1 5) else none

/-- One raw row whose created-date parses but whose closed-date does not. -/
def sample_rows : List RawRow :=
  [⟨"Network", "High", "Open", "2024-01-05", "not-a-date"⟩]

theorem C9_load_parse_policy_witness :
    (∀ r ∈ sample_rows, (sample_parse r.createdDate).isSome) ∧
    (∃ ts, load_data sample_parse sample_rows = .ok ts ∧
      ts.map Ticket.closedDate = sample_rows.map (fun r => sample_parse r.closedDate)) :=
  ⟨by decide, (C9_load_parse_policy sample_parse sample_rows).2 (by decide)⟩
